import Mathlib

/-!
Verification of the insight_hub scheduler core (cron validation, the
scheduled-job state machine, quota enforcement, execution-log tracking and
the periodic-task synchronizer) against its natural-language specification.

The Python sources under `src/scheduler` are shallowly embedded: pure
functions become Lean functions, Django model rows become structures,
database/cache state becomes explicit state passing, and `raise`/`except`
becomes `Except`.  External collaborators (croniter's fire-time arithmetic,
`json.loads`, the Celery broker) enter as explicit oracle parameters, never
as stubs of repository code.
-/

/- ===== Python primitive models ===== -/

/-- Numeric value of a list of decimal digit characters, most significant
first. -/
def digitsToNat (l : List Char) : Nat :=
  l.foldl (fun a c => a * 10 + (c.toNat - 48)) 0

/-- Tail of the digit grammar accepted by Python `int` on decimal text:
after the leading digit, further digits may be separated by single
underscores (PEP 515); a trailing or doubled underscore is rejected. -/
def pyDigitRest : List Char → Bool
  | [] => true
  | '_' :: c :: rest => c.isDigit && pyDigitRest rest
  | ['_'] => false
  | c :: rest => c.isDigit && pyDigitRest rest

/-- Digit part accepted by Python `int`: `digit (digit | "_" digit)*`. -/
def pyDigitRun (l : List Char) : Bool :=
  match l with
  | [] => false
  | c :: rest => c.isDigit && pyDigitRest rest

/-- Model of Python `int(s)` on whitespace-free text (the cron fields come
from `str.split()`, so they never contain whitespace): an optional sign
followed by digits with optional single underscore separators.  `none`
models `ValueError`. -/
def pyInt (s : String) : Option Int :=
  match s.toList with
  | '+' :: rest =>
    if pyDigitRun rest then some ((digitsToNat (rest.filter (fun c => c ≠ '_')) : Nat) : Int)
    else none
  | '-' :: rest =>
    if pyDigitRun rest then some (-((digitsToNat (rest.filter (fun c => c ≠ '_')) : Nat) : Int))
    else none
  | l =>
    if pyDigitRun l then some ((digitsToNat (l.filter (fun c => c ≠ '_')) : Nat) : Int)
    else none

/-- Split a character list at every occurrence of `sep`, keeping empty
pieces, exactly like Python `s.split(sep)` for a one-character separator.
The result is always nonempty. -/
def splitOnChar (sep : Char) : List Char → List (List Char)
  | [] => [[]]
  | c :: rest =>
    match splitOnChar sep rest with
    | [] => [[c]]
    | g :: gs => if c = sep then [] :: g :: gs else (c :: g) :: gs

/-- Python `sep in s` for a one-character separator. -/
def pyContains (s : String) (sep : Char) : Bool :=
  s.toList.contains sep

/-- Python `s.split(sep)` for a one-character separator. -/
def pySplit (s : String) (sep : Char) : List String :=
  (splitOnChar sep s.toList).map fun l => ⟨l⟩

/-- Python `s.strip()` (the inputs of interest contain no exotic
whitespace). -/
def pyStrip (s : String) : String :=
  ⟨((s.toList.dropWhile Char.isWhitespace).reverse.dropWhile Char.isWhitespace).reverse⟩

deriving instance DecidableEq for Except

/- ===== Cron field validation (src/scheduler/validators.py) ===== -/

/-- Errors raised by `_validate_cron_field`; each constructor carries the
offending field's name, mirroring the `{field_name}` interpolated into
every message of the source. -/
inductive FieldErr where
  | badRangeFormat (field : String)
  | badRange (field : String) (start stop : Int)
  | badRangeValues (field : String)
  | badStepFormat (field : String)
  | stepNotPositive (field : String)
  | badStepValue (field : String)
  | valueOutOfRange (field : String) (n : Int)
  | badValue (field : String) (v : String)
deriving DecidableEq, Repr

/-- Field name carried by a `FieldErr`. -/
def FieldErr.fieldName : FieldErr → String
  | .badRangeFormat f => f
  | .badRange f _ _ => f
  | .badRangeValues f => f
  | .badStepFormat f => f
  | .stepNotPositive f => f
  | .badStepValue f => f
  | .valueOutOfRange f _ => f
  | .badValue f _ => f

/-- Comma branch of `_validate_cron_field`: each comma-separated value is
stripped, parsed with `int`, and range-checked; iteration stops at the
first offender. -/
def checkCommaValues (vals : List String) (minV maxV : Int) (name : String) :
    Except FieldErr Unit :=
  match vals with
  | [] => .ok ()
  | v :: rest =>
    match pyInt (pyStrip v) with
    | some n =>
      if n < minV ∨ n > maxV then .error (.valueOutOfRange name n)
      else checkCommaValues rest minV maxV name
    | none => .error (.badValue name v)

/-- Embedding of `_validate_cron_field(field_value, min_val, max_val,
field_name)`.  Branch order matters and mirrors the source: `*`, then
hyphen ranges, then steps, then comma lists, then a single integer.  The
step branch validates only the step (the base is never checked). -/
def validate_cron_field (f : String) (minV maxV : Int) (name : String) :
    Except FieldErr Unit :=
  if f = "*" then .ok ()
  else if pyContains f '-' then
    match pySplit f '-' with
    | [a, b] =>
      match pyInt a, pyInt b with
      | some s, some e =>
        if s < minV ∨ e > maxV ∨ s > e then .error (.badRange name s e)
        else .ok ()
      | some _, none => .error (.badRangeValues name)
      | none, _ => .error (.badRangeValues name)
    | _ => .error (.badRangeFormat name)
  else if pyContains f '/' then
    match pySplit f '/' with
    | [_, st] =>
      match pyInt st with
      | some k => if k ≤ 0 then .error (.stepNotPositive name) else .ok ()
      | none => .error (.badStepValue name)
    | _ => .error (.badStepFormat name)
  else if pyContains f ',' then
    checkCommaValues (pySplit f ',') minV maxV name
  else
    match pyInt f with
    | some n =>
      if n < minV ∨ n > maxV then .error (.valueOutOfRange name n)
      else .ok ()
    | none => .error (.badValue name f)


/- ===== The claim's field grammar (from the spec's words, for C7) ===== -/

/-- Decimal numeral: one or more plain digits.  This is the claim's notion
of "a single integer" written in a cron field. -/
def decimalNumeral (s : String) : Bool :=
  !s.toList.isEmpty && s.toList.all Char.isDigit

/-- Decimal numeral whose value lies within `[minV, maxV]`. -/
def decimalInRange (s : String) (minV maxV : Int) : Bool :=
  decimalNumeral s && decide (minV ≤ (digitsToNat s.toList : Int)) &&
    decide ((digitsToNat s.toList : Int) ≤ maxV)

/-- The field shapes enumerated by the claim, formalised from the spec's
words: `*`, a single integer in range, a comma-list of such integers, a
hyphen range `a-b` with `a ≤ b` within range, or a step `base/step` with
`step > 0` (the claim does not constrain the base, so none is imposed
here — the most charitable reading). -/
def specFieldShape (f : String) (minV maxV : Int) : Bool :=
  f = "*" ||
  decimalInRange f minV maxV ||
  ((pySplit f ',').length ≥ 2 && (pySplit f ',').all fun v => decimalInRange v minV maxV) ||
  (match pySplit f '-' with
   | [a, b] => decimalNumeral a && decimalNumeral b &&
       decide (minV ≤ (digitsToNat a.toList : Int)) &&
       decide ((digitsToNat a.toList : Int) ≤ (digitsToNat b.toList : Int)) &&
       decide ((digitsToNat b.toList : Int) ≤ maxV)
   | _ => false) ||
  (match pySplit f '/' with
   | [_, st] => decimalNumeral st && decide (0 < digitsToNat st.toList)
   | _ => false)

/-- Python-int text whose value lies within `[minV, maxV]`. -/
def pyIntInRange (s : String) (minV maxV : Int) : Bool :=
  match pyInt s with
  | some n => decide (minV ≤ n) && decide (n ≤ maxV)
  | none => false

/-- The shapes `_validate_cron_field` actually accepts (the amended claim):
`*`; else, if the field contains a hyphen, a two-part range whose parts
parse as Python ints with `minV ≤ a`, `b ≤ maxV`, `a ≤ b`; else, if it
contains a slash, a two-part step whose step parses as a positive Python
int and whose base is unchecked; else, if it contains commas, a list of
in-range Python ints; else a single in-range Python int. -/
def amendedFieldShape (f : String) (minV maxV : Int) : Bool :=
  if f = "*" then true
  else if pyContains f '-' then
    match pySplit f '-' with
    | [a, b] =>
      match pyInt a, pyInt b with
      | some s, some e => decide (minV ≤ s) && decide (e ≤ maxV) && decide (s ≤ e)
      | _, _ => false
    | _ => false
  else if pyContains f '/' then
    match pySplit f '/' with
    | [_, st] =>
      match pyInt st with
      | some k => decide (0 < k)
      | none => false
    | _ => false
  else if pyContains f ',' then
    (pySplit f ',').all fun v => pyIntInRange (pyStrip v) minV maxV
  else pyIntInRange f minV maxV

/-- `true` when the outcome is success or an error that names `n` as the
offending field. -/
def namesField : Except FieldErr Unit → String → Bool
  | .ok _, _ => true
  | .error e, n => e.fieldName == n

theorem checkCommaValues_ok_iff (vals : List String) (minV maxV : Int) (name : String) :
    checkCommaValues vals minV maxV name = .ok () ↔
      (vals.all fun v => pyIntInRange (pyStrip v) minV maxV) = true := by
  induction vals with
  | nil => simp [checkCommaValues]
  | cons v rest ih =>
    simp only [checkCommaValues, List.all_cons, Bool.and_eq_true]
    cases h : pyInt (pyStrip v) with
    | none => simp [pyIntInRange, h]
    | some n =>
      by_cases hlt : n < minV ∨ n > maxV
      · simp only [if_pos hlt]
        simp [pyIntInRange, h]
        omega
      · simp only [if_neg hlt]
        simp [pyIntInRange, h, ih]
        intros
        omega

theorem checkCommaValues_names (vals : List String) (minV maxV : Int) (name : String) :
    namesField (checkCommaValues vals minV maxV name) name = true := by
  induction vals with
  | nil => simp [checkCommaValues, namesField]
  | cons v rest ih =>
    simp only [checkCommaValues]
    cases h : pyInt (pyStrip v) with
    | none => simp [namesField, FieldErr.fieldName]
    | some n =>
      by_cases hlt : n < minV ∨ n > maxV
      · simp [if_pos hlt, namesField, FieldErr.fieldName]
      · simpa [if_neg hlt] using ih

theorem validate_cron_field_names (f : String) (minV maxV : Int) (name : String) :
    namesField (validate_cron_field f minV maxV name) name = true := by
  unfold validate_cron_field
  split_ifs with h1 h2 h3 h4
  · simp [namesField]
  · rcases hp : pySplit f '-' with _ | ⟨a, _ | ⟨b, _ | ⟨c, r⟩⟩⟩ <;>
      simp only [namesField, FieldErr.fieldName]
    · simp [namesField, FieldErr.fieldName]
    · simp [namesField, FieldErr.fieldName]
    · cases hA : pyInt a <;> cases hB : pyInt b <;>
        simp [namesField, FieldErr.fieldName]
      split_ifs <;> simp [namesField, FieldErr.fieldName]
    · simp [namesField, FieldErr.fieldName]
  · rcases hp : pySplit f '/' with _ | ⟨a, _ | ⟨b, _ | ⟨c, r⟩⟩⟩ <;>
      simp only [namesField, FieldErr.fieldName]
    · simp [namesField, FieldErr.fieldName]
    · simp [namesField, FieldErr.fieldName]
    · cases hB : pyInt b <;> simp [namesField, FieldErr.fieldName]
      split_ifs <;> simp [namesField, FieldErr.fieldName]
    · simp [namesField, FieldErr.fieldName]
  · exact checkCommaValues_names _ _ _ _
  · cases hA : pyInt f <;> simp [namesField, FieldErr.fieldName]
    split_ifs <;> simp [namesField, FieldErr.fieldName]

theorem validate_cron_field_ok_iff (f : String) (minV maxV : Int) (name : String) :
    validate_cron_field f minV maxV name = .ok () ↔
      amendedFieldShape f minV maxV = true := by
  unfold validate_cron_field amendedFieldShape
  split_ifs with h1 h2 h3 h4
  · simp
  · rcases hp : pySplit f '-' with _ | ⟨a, _ | ⟨b, _ | ⟨c, r⟩⟩⟩
    · simp
    · simp
    · cases hA : pyInt a <;> cases hB : pyInt b <;> simp only [hA, hB]
      · simp
      · simp
      · simp
      · split_ifs with h
        · simp
          omega
        · simp
          omega
    · simp
  · rcases hp : pySplit f '/' with _ | ⟨a, _ | ⟨b, _ | ⟨c, r⟩⟩⟩
    · simp
    · simp
    · cases hB : pyInt b <;> simp only [hB]
      · simp
      · split_ifs with h <;> simp <;> omega
    · simp
  · exact checkCommaValues_ok_iff _ _ _ _
  · cases hA : pyInt f <;> simp [pyIntInRange, hA]

/-- C7 (counterexample): the minute field "5_0" is outside every shape the
claim enumerates — it is not `*`, not a decimal integer, and contains no
comma, hyphen or slash — yet `_validate_cron_field` accepts it, because
Python `int("5_0")` parses the underscore literal as 50.  The claim's
"accepts a field exactly when" is therefore false as stated. -/
theorem c7_cron_field_claim_counterexample :
    validate_cron_field "5_0" 0 59 "minute" = .ok () ∧
      specFieldShape "5_0" 0 59 = false :=
  ⟨by decide, by decide⟩

/-- C7 (amended): a 5-field expression's field is accepted exactly when it
is `*`; or — containing a hyphen — a two-part range `a-b` whose parts
parse as Python ints with `minV ≤ a`, `b ≤ maxV`, `a ≤ b`; or — containing
a slash but no hyphen — a two-part step whose step parses as a positive
Python int, the base being unchecked; or — containing commas but neither
hyphen nor slash — a list of in-range Python ints; or a single in-range
Python int; where Python ints admit a leading sign and underscore digit
separators.  Every rejection carries an error naming the offending
field. -/
theorem c7_cron_field_acceptance (f : String) (minV maxV : Int) (name : String) :
    (validate_cron_field f minV maxV name = .ok () ↔
      amendedFieldShape f minV maxV = true) ∧
    namesField (validate_cron_field f minV maxV name) name = true :=
  ⟨validate_cron_field_ok_iff f minV maxV name,
   validate_cron_field_names f minV maxV name⟩

/- ===== Frequency validation (validate_cron_frequency, C1) ===== -/

/-- Exceptions that can arise inside the `try` block of
`validate_cron_frequency`: croniter failing on the expression, or the
`ValidationError` the body itself raises for a sub-minute gap. -/
inductive FreqExc where
  | croniterError
  | cronTooFrequent
deriving DecidableEq, Repr

/-- Body of the `try` block of `validate_cron_frequency`: croniter yields
the two nearest future fire times (the oracle `fires`, in seconds; `none`
models croniter raising), and a gap under 60 seconds raises
`CronTooFrequent`; a gap under 300 seconds falls into an empty `elif`
(`pass`). -/
def cron_frequency_try (fires : Option (Int × Int)) : Except FreqExc Unit :=
  match fires with
  | Option.none => .error .croniterError
  | some (next1, next2) =>
    if next2 - next1 < 60 then .error .cronTooFrequent
    else .ok ()

/-- Embedding of `validate_cron_frequency(value)`: an empty expression
returns immediately; otherwise the whole body runs under
`except Exception: pass`, which swallows every exception — including the
`ValidationError` raised by the body itself — so the function never
fails. -/
def validate_cron_frequency (value : String) (fires : Option (Int × Int)) :
    Except FreqExc Unit :=
  if value = "" then .ok ()
  else
    match cron_frequency_try fires with
    | .ok () => .ok ()
    | .error _ => .ok ()

/-- C1: for every cron expression whose two nearest future fire times are
less than 60 seconds apart, the body of `validate_cron_frequency` does
raise `CronTooFrequent`, but the function's own `except Exception: pass`
swallows the `ValidationError`, and the check returns silently — the
error never reaches the caller, contradicting the claim. -/
theorem c1_cron_frequency_error_swallowed (value : String) (next1 next2 : Int)
    (hv : value ≠ "") (hgap : next2 - next1 < 60) :
    cron_frequency_try (some (next1, next2)) = .error .cronTooFrequent ∧
      validate_cron_frequency value (some (next1, next2)) = .ok () := by
  constructor
  · simp [cron_frequency_try, hgap]
  · simp [validate_cron_frequency, hv, cron_frequency_try, hgap]

/-- Witness for C1 at the six-field croniter expression `* * * * * *`
(fires every second, so the two nearest fire times are 1 second apart). -/
theorem c1_witness :
    cron_frequency_try (some (0, 1)) = .error .cronTooFrequent ∧
      validate_cron_frequency "* * * * * *" (some (0, 1)) = .ok () :=
  c1_cron_frequency_error_swallowed "* * * * * *" 0 1 (by decide) (by decide)

/- ===== Parameter type validation (validate_parameter_type, C10) ===== -/

/-- Python values that can appear in a job's JSON `parameters` map.
Floats are abstracted to a rational payload and collections to their
emptiness: the validator inspects only types, digits of strings, and
truthiness. -/
inductive PyVal where
  | str (s : String)
  | int (n : Int)
  | float (q : ℚ)
  | bool (b : Bool)
  | none
  | list (nonempty : Bool)
  | dict (nonempty : Bool)
deriving DecidableEq, Repr

/-- Python `s.isdigit()` on ASCII text. -/
def pyIsDigit (s : String) : Bool :=
  !s.toList.isEmpty && s.toList.all Char.isDigit

/-- Python `s.replace(".", "")`. -/
def pyReplaceDot (s : String) : String :=
  ⟨s.toList.filter fun c => c ≠ '.'⟩

/-- Python `s.startswith(p)`. -/
def pyStartsWith (s p : String) : Bool :=
  s.toList.take p.toList.length == p.toList

/-- Embedding of `validate_parameter_type(value, expected_type)`.  `jsonOk`
is the `json.loads` oracle: whether a text parses as JSON (its failure is
the only exception the source's `except (ValueError, TypeError)` can
see).  Note `isinstance(value, int)` and `isinstance(value, (int, float))`
are true for Python booleans, and every declared type outside the handled
set — including date, datetime and file — falls into the final
`return True`. -/
def validate_parameter_type (jsonOk : String → Bool) (value : PyVal)
    (expected_type : String) : Bool :=
  if expected_type = "string" then
    match value with
    | .str _ => true
    | _ => false
  else if expected_type = "integer" then
    match value with
    | .int _ => true
    | .bool _ => true
    | .str s => pyIsDigit s
    | _ => false
  else if expected_type = "float" then
    match value with
    | .int _ => true
    | .bool _ => true
    | .float _ => true
    | .str s => pyIsDigit (pyReplaceDot s)
    | _ => false
  else if expected_type = "boolean" then
    match value with
    | .bool _ => true
    | .str s => s == "true" || s == "false" || s == "True" || s == "False"
    | _ => false
  else if expected_type = "email" then
    match value with
    | .str s => pyContains s '@'
    | _ => false
  else if expected_type = "url" then
    match value with
    | .str s => pyStartsWith s "http://" || pyStartsWith s "https://"
    | _ => false
  else if expected_type = "json" then
    match value with
    | .str s => jsonOk s
    | _ => true
  else true

/-- C10: for a declared parameter type of `date`, `datetime` or `file` —
or any declared type outside the validator's handled set — the type check
returns `True` for every value whatsoever and every behaviour of
`json.loads`, so parameter validation can never reject such a value. -/
theorem c10_unhandled_types_always_pass (jsonOk : String → Bool)
    (value : PyVal) (t : String)
    (ht : t = "date" ∨ t = "datetime" ∨ t = "file" ∨
      t ∉ (["string", "integer", "float", "boolean",
            "email", "url", "json"] : List String)) :
    validate_parameter_type jsonOk value t = true := by
  have hm : t ∉ (["string", "integer", "float", "boolean",
      "email", "url", "json"] : List String) := by
    rcases ht with h | h | h | h <;> simp [h]
  simp only [List.mem_cons, List.not_mem_nil, or_false, not_or] at hm
  obtain ⟨h1, h2, h3, h4, h5, h6, h7⟩ := hm
  simp [validate_parameter_type, h1, h2, h3, h4, h5, h6, h7]

/-- Witness for C10: a `date`-typed parameter passes with an integer value
even under a `json.loads` that always fails. -/
theorem c10_witness :
    ((("date" : String) = "date" ∨ ("date" : String) = "datetime" ∨
      ("date" : String) = "file" ∨
      ("date" : String) ∉ (["string", "integer", "float", "boolean",
        "email", "url", "json"] : List String)) ∧
     validate_parameter_type (fun _ => false) (.int 5) "date" = true) :=
  ⟨Or.inl rfl,
   c10_unhandled_types_always_pass (fun _ => false) (.int 5) "date" (Or.inl rfl)⟩

/- ===== ScheduledJob (src/scheduler/models.py) ===== -/

/-- Row of the `ScheduledJob` model, restricted to the fields the verified
operations read or write.  `celery_task` is the optional one-to-one
reference to the external `PeriodicTask` handle (by id); timestamps are in
seconds. -/
structure ScheduledJob where
  id : Nat
  user : Nat
  cron_expression : String
  is_active : Bool
  status : String
  celery_task : Option Nat
  last_run : Option Int
  next_run : Option Int
  max_executions : Option Nat
  execution_count : Nat
  max_failures : Nat
  consecutive_failures : Nat
deriving DecidableEq, Repr

/-- Embedding of `ScheduledJob.can_execute`.  The middle test is
`if self.max_executions and self.execution_count >= self.max_executions`,
whose Python truthiness skips the cap both when `max_executions` is `None`
and when it is `0`. -/
def ScheduledJob.can_execute (j : ScheduledJob) : Bool :=
  if !j.is_active || j.status != "active" then false
  else if (match j.max_executions with
           | some m => decide (m ≠ 0) && decide (j.execution_count ≥ m)
           | Option.none => false) then false
  else if j.consecutive_failures ≥ j.max_failures then false
  else true

/-- `ScheduledJob.increment_execution_count` (saves `execution_count`). -/
def ScheduledJob.increment_execution_count (j : ScheduledJob) : ScheduledJob :=
  { j with execution_count := j.execution_count + 1 }

/-- `ScheduledJob.increment_failure_count` (saves
`consecutive_failures`). -/
def ScheduledJob.increment_failure_count (j : ScheduledJob) : ScheduledJob :=
  { j with consecutive_failures := j.consecutive_failures + 1 }

/-- `ScheduledJob.reset_failure_count` (saves `consecutive_failures`). -/
def ScheduledJob.reset_failure_count (j : ScheduledJob) : ScheduledJob :=
  { j with consecutive_failures := 0 }

/-- C3: on the spec's data model (`max_executions`, when set, is ≥ 1),
`can_execute` is true exactly when the job is active with status
"active", the execution cap (when set) is not reached, and the failure
streak is strictly below `max_failures`; and it is false whenever
`consecutive_failures ≥ max_failures`, regardless of the other fields. -/
theorem c3_can_execute_iff (j : ScheduledJob)
    (hmax : ∀ m, j.max_executions = some m → 1 ≤ m) :
    (j.can_execute = true ↔
      (j.is_active = true ∧ j.status = "active" ∧
        (∀ m, j.max_executions = some m → j.execution_count < m) ∧
        j.consecutive_failures < j.max_failures)) ∧
    (j.max_failures ≤ j.consecutive_failures → j.can_execute = false) := by
  constructor
  · unfold ScheduledJob.can_execute
    cases hm : j.max_executions with
    | none =>
      simp [hm, and_assoc]
    | some m =>
      have hm1 : 1 ≤ m := hmax m hm
      have hm0 : m ≠ 0 := by omega
      simp [hm, and_assoc, hm0]
  · intro hf
    unfold ScheduledJob.can_execute
    split_ifs <;> simp_all

/-- Witness for C3 at a concrete executable job with a set cap. -/
theorem c3_witness :
    ((∀ m, (⟨1, 1, "0 9 * * *", true, "active", Option.none, Option.none,
        Option.none, some 5, 2, 3, 1⟩ : ScheduledJob).max_executions = some m →
        1 ≤ m) ∧
     (((⟨1, 1, "0 9 * * *", true, "active", Option.none, Option.none,
        Option.none, some 5, 2, 3, 1⟩ : ScheduledJob).can_execute = true ↔
       ((⟨1, 1, "0 9 * * *", true, "active", Option.none, Option.none,
        Option.none, some 5, 2, 3, 1⟩ : ScheduledJob).is_active = true ∧
        (⟨1, 1, "0 9 * * *", true, "active", Option.none, Option.none,
        Option.none, some 5, 2, 3, 1⟩ : ScheduledJob).status = "active" ∧
        (∀ m, (⟨1, 1, "0 9 * * *", true, "active", Option.none, Option.none,
          Option.none, some 5, 2, 3, 1⟩ : ScheduledJob).max_executions = some m →
          (⟨1, 1, "0 9 * * *", true, "active", Option.none, Option.none,
          Option.none, some 5, 2, 3, 1⟩ : ScheduledJob).execution_count < m) ∧
        (⟨1, 1, "0 9 * * *", true, "active", Option.none, Option.none,
          Option.none, some 5, 2, 3, 1⟩ : ScheduledJob).consecutive_failures <
        (⟨1, 1, "0 9 * * *", true, "active", Option.none, Option.none,
          Option.none, some 5, 2, 3, 1⟩ : ScheduledJob).max_failures)) ∧
      ((⟨1, 1, "0 9 * * *", true, "active", Option.none, Option.none,
          Option.none, some 5, 2, 3, 1⟩ : ScheduledJob).max_failures ≤
       (⟨1, 1, "0 9 * * *", true, "active", Option.none, Option.none,
          Option.none, some 5, 2, 3, 1⟩ : ScheduledJob).consecutive_failures →
       (⟨1, 1, "0 9 * * *", true, "active", Option.none, Option.none,
          Option.none, some 5, 2, 3, 1⟩ : ScheduledJob).can_execute = false))) :=
  ⟨fun m hm => by simp at hm; omega,
   c3_can_execute_iff
     ⟨1, 1, "0 9 * * *", true, "active", Option.none, Option.none,
      Option.none, some 5, 2, 3, 1⟩
     (fun m hm => by simp at hm; omega)⟩

/- ===== JobExecutionLog tracker (src/scheduler/models.py, C8) ===== -/

/-- Python truthiness of an optional value, used for the `if result:` and
`if celery_task_id:` guards. -/
def pyTruthy : Option PyVal → Bool
  | Option.none => false
  | some (.str s) => s != ""
  | some (.int n) => n != 0
  | some (.float q) => q != 0
  | some (.bool b) => b
  | some .none => false
  | some (.list ne) => ne
  | some (.dict ne) => ne

/-- Row of the `JobExecutionLog` model (the fields the tracker touches). -/
structure JobExecutionLog where
  status : String
  started_at : Option Int
  completed_at : Option Int
  duration : Option Int
  result : Option PyVal
  error_message : String
  error_traceback : String
  celery_task_id : String
deriving DecidableEq, Repr

/-- `JobExecutionLog.calculate_duration`: sets `duration` to
`completed_at - started_at` only when both endpoints are present. -/
def JobExecutionLog.calculate_duration (l : JobExecutionLog) : JobExecutionLog :=
  match l.started_at, l.completed_at with
  | some s, some c => { l with duration := some (c - s) }
  | _, _ => l

/-- `JobExecutionLog.mark_as_started(celery_task_id=None)`: unconditionally
sets status to "running", records `started_at`, and stores a truthy
correlation id. -/
def JobExecutionLog.mark_as_started (l : JobExecutionLog) (tid : Option String)
    (now : Int) : JobExecutionLog :=
  { l with
    status := "running"
    started_at := some now
    celery_task_id :=
      match tid with
      | some t => if t ≠ "" then t else l.celery_task_id
      | Option.none => l.celery_task_id }

/-- `JobExecutionLog.mark_as_completed(result=None)`: sets status
"success", records `completed_at`, stores a truthy result payload, and
computes the duration. -/
def JobExecutionLog.mark_as_completed (l : JobExecutionLog)
    (result : Option PyVal) (now : Int) : JobExecutionLog :=
  JobExecutionLog.calculate_duration
    { l with
      status := "success"
      completed_at := some now
      result := if pyTruthy result then result else l.result }

/-- `JobExecutionLog.mark_as_failed(error_message="",
error_traceback="")`: sets status "failed", records `completed_at` and the
error payload, and computes the duration. -/
def JobExecutionLog.mark_as_failed (l : JobExecutionLog) (msg tb : String)
    (now : Int) : JobExecutionLog :=
  JobExecutionLog.calculate_duration
    { l with
      status := "failed"
      completed_at := some now
      error_message := msg
      error_traceback := tb }

/-- Terminal statuses of the execution-log state machine. -/
def terminalStatus (s : String) : Bool :=
  s == "success" || s == "failed" || s == "cancelled" || s == "timeout"

theorem calculate_duration_status (l : JobExecutionLog) :
    (JobExecutionLog.calculate_duration l).status = l.status := by
  unfold JobExecutionLog.calculate_duration
  cases hs : l.started_at <;> cases hc : l.completed_at <;> simp

/-- C8 (counterexample): `mark_as_started` carries no guard: applied to a
log already in the terminal state "success", it moves the status back to
"running", so the tracker's operations are not monotonic as claimed. -/
theorem c8_monotonicity_counterexample :
    terminalStatus (⟨"success", some 0, some 5, some 5, Option.none,
      "", "", "tid-1"⟩ : JobExecutionLog).status = true ∧
    (JobExecutionLog.mark_as_started
      ⟨"success", some 0, some 5, some 5, Option.none, "", "", "tid-1"⟩
      Option.none 10).status = "running" :=
  ⟨by decide, by decide⟩

/-- C8 (amended): the completion operations are monotonic — whatever the
log's current state, `mark_as_completed` lands in the terminal state
"success" and `mark_as_failed` in the terminal state "failed", never back
in pending or running — but `mark_as_started` unconditionally sets
"running", even from a terminal state. -/
theorem c8_tracker_transition_targets (l : JobExecutionLog)
    (result : Option PyVal) (msg tb : String) (tid : Option String)
    (now : Int) :
    (l.mark_as_completed result now).status = "success" ∧
    terminalStatus (l.mark_as_completed result now).status = true ∧
    (l.mark_as_failed msg tb now).status = "failed" ∧
    terminalStatus (l.mark_as_failed msg tb now).status = true ∧
    (l.mark_as_started tid now).status = "running" := by
  refine ⟨?_, ?_, ?_, ?_, rfl⟩ <;>
    simp [JobExecutionLog.mark_as_completed, JobExecutionLog.mark_as_failed,
      calculate_duration_status, terminalStatus]

/- ===== JobExecutionService (src/scheduler/services/job_service.py, C9) ===== -/

/-- `JobExecutionService.mark_execution_completed(execution_log, result)`:
marks the log as succeeded, then applies `increment_execution_count` and
`reset_failure_count` to the owning job.  Returns (log, job). -/
def mark_execution_completed (log : JobExecutionLog) (j : ScheduledJob)
    (result : Option PyVal) (now : Int) : JobExecutionLog × ScheduledJob :=
  (log.mark_as_completed result now,
   j.increment_execution_count.reset_failure_count)

/-- `JobExecutionService.mark_execution_failed(execution_log,
error_message, error_traceback)`: marks the log as failed, then applies
`increment_failure_count` to the owning job. -/
def mark_execution_failed (log : JobExecutionLog) (j : ScheduledJob)
    (msg tb : String) (now : Int) : JobExecutionLog × ScheduledJob :=
  (log.mark_as_failed msg tb now, j.increment_failure_count)

/-- C9: starting from counters (0, 0), recording a success, a failure and
a success (each dispatch writes its own log row) yields
`execution_count = 2` and `consecutive_failures = 0`; and in general a
success increments the execution count and resets the failure streak,
while a failure leaves the execution count alone and increments the
streak. -/
theorem c9_success_failure_success (j : ScheduledJob)
    (l1 l2 l3 : JobExecutionLog) (r1 r3 : Option PyVal) (msg tb : String)
    (t1 t2 t3 : Int) :
    ((mark_execution_completed l3
        (mark_execution_failed l2
          (mark_execution_completed l1
            { j with execution_count := 0, consecutive_failures := 0 }
            r1 t1).2 msg tb t2).2 r3 t3).2.execution_count = 2 ∧
     (mark_execution_completed l3
        (mark_execution_failed l2
          (mark_execution_completed l1
            { j with execution_count := 0, consecutive_failures := 0 }
            r1 t1).2 msg tb t2).2 r3 t3).2.consecutive_failures = 0) ∧
    (∀ (k : ScheduledJob) (l : JobExecutionLog) (r : Option PyVal) (t : Int),
      (mark_execution_completed l k r t).2.execution_count =
        k.execution_count + 1 ∧
      (mark_execution_completed l k r t).2.consecutive_failures = 0 ∧
      (mark_execution_failed l k msg tb t).2.execution_count =
        k.execution_count ∧
      (mark_execution_failed l k msg tb t).2.consecutive_failures =
        k.consecutive_failures + 1) :=
  ⟨⟨rfl, rfl⟩, fun _ _ _ _ => ⟨rfl, rfl, rfl, rfl⟩⟩

/- ===== Dispatch outcome branches (src/scheduler/tasks.py, C6) ===== -/

/-- Failure branch of `execute_scheduled_job`: after `mark_as_failed` on
the log, the job atomically runs `increment_failure_count`, sets
`last_run = timezone.now()`, and saves exactly `consecutive_failures` and
`last_run`.  `next_run` is not written on this branch. -/
def record_dispatch_failure (j : ScheduledJob) (now : Int) : ScheduledJob :=
  { j.increment_failure_count with last_run := some now }

/-- Success branch of `execute_scheduled_job`, for contrast: it also
resets the failure streak and advances `next_run` to the croniter
oracle's next fire instant (`CronService.get_next_run_time`; `none` when
croniter raises). -/
def record_dispatch_success (j : ScheduledJob) (now : Int)
    (nextFire : Option Int) : ScheduledJob :=
  { j.increment_execution_count.reset_failure_count with
    last_run := some now, next_run := nextFire }

/-- C6 (counterexample): a job whose stored `next_run` is 100 fails a
dispatch at time 150 in a scenario where the schedule's next fire instant
is 200 (as the success branch of the very same task would record).  The
failure branch leaves `next_run` at 100 — it is not advanced to the
schedule's next fire instant, contradicting the claim. -/
theorem c6_next_run_not_advanced_counterexample :
    (record_dispatch_failure
      ⟨1, 1, "0 9 * * *", true, "active", Option.none, Option.none,
        some 100, Option.none, 0, 3, 0⟩ 150).next_run = some 100 ∧
    (record_dispatch_failure
      ⟨1, 1, "0 9 * * *", true, "active", Option.none, Option.none,
        some 100, Option.none, 0, 3, 0⟩ 150).next_run ≠ some 200 ∧
    (record_dispatch_success
      ⟨1, 1, "0 9 * * *", true, "active", Option.none, Option.none,
        some 100, Option.none, 0, 3, 0⟩ 150 (some 200)).next_run = some 200 :=
  ⟨rfl, by decide, rfl⟩

/-- C6 (amended): recording a failed dispatch increments
`consecutive_failures` by one and sets `last_run` to the dispatch time;
`next_run` is left unchanged (only the success branch advances it), and
every other field of the job is unchanged. -/
theorem c6_record_failure_frame (j : ScheduledJob) (now : Int) :
    (record_dispatch_failure j now).consecutive_failures =
      j.consecutive_failures + 1 ∧
    (record_dispatch_failure j now).last_run = some now ∧
    (record_dispatch_failure j now).next_run = j.next_run ∧
    (record_dispatch_failure j now).execution_count = j.execution_count ∧
    (record_dispatch_failure j now).is_active = j.is_active ∧
    (record_dispatch_failure j now).status = j.status ∧
    (record_dispatch_failure j now).max_executions = j.max_executions ∧
    (record_dispatch_failure j now).max_failures = j.max_failures ∧
    (record_dispatch_failure j now).celery_task = j.celery_task ∧
    (record_dispatch_failure j now).cron_expression = j.cron_expression ∧
    (record_dispatch_failure j now).id = j.id ∧
    (record_dispatch_failure j now).user = j.user :=
  ⟨rfl, rfl, rfl, rfl, rfl, rfl, rfl, rfl, rfl, rfl, rfl, rfl⟩

/- ===== Periodic-task release (celery_service.py + models.py, C2) ===== -/

/-- Persistent rows relevant to the synchronizer: the `ScheduledJob` table
and the external `PeriodicTask` table (handles by id). -/
structure SchedDb where
  jobs : List ScheduledJob
  periodic_tasks : List Nat
deriving DecidableEq, Repr

/-- Django delete of a `PeriodicTask` row.  `ScheduledJob.celery_task` is
declared `OneToOneField(PeriodicTask, on_delete=models.CASCADE)`, so
deleting the handle cascades and deletes every `ScheduledJob` row that
references it. -/
def deletePeriodicTaskRow (h : Nat) (db : SchedDb) : SchedDb :=
  { periodic_tasks := db.periodic_tasks.filter fun t => t ≠ h,
    jobs := db.jobs.filter fun j => j.celery_task ≠ some h }

/-- Embedding of `CeleryTaskService.delete_periodic_task(scheduled_job)`:
if the job holds a handle, delete that `PeriodicTask` row (the
`except Exception: pass` is irrelevant here, as the model's delete always
succeeds); the in-memory `scheduled_job.celery_task` reference is never
cleared.  With no handle the call does nothing.  Returns the job object
and the new database state. -/
def delete_periodic_task (j : ScheduledJob) (db : SchedDb) :
    ScheduledJob × SchedDb :=
  match j.celery_task with
  | some h => (j, deletePeriodicTaskRow h db)
  | Option.none => (j, db)

/-- C2: evaluated on a job (id 1) holding handle 7 in a one-job database,
`delete_periodic_task` removes the handle but — through the
`on_delete=CASCADE` declared on `ScheduledJob.celery_task` — the cascade
also deletes the `ScheduledJob` row itself, and the job's reference still
points at the dead handle; the claim's "job record survives with its
reference cleared" is false.  The no-handle half of the claim does hold:
on a handle-less job the call leaves everything untouched. -/
theorem c2_release_cascades_job_deletion :
    (delete_periodic_task
      ⟨1, 1, "0 9 * * *", true, "active", some 7, Option.none, Option.none,
        Option.none, 0, 3, 0⟩
      ⟨[⟨1, 1, "0 9 * * *", true, "active", some 7, Option.none, Option.none,
        Option.none, 0, 3, 0⟩], [7]⟩).2.periodic_tasks = [] ∧
    (delete_periodic_task
      ⟨1, 1, "0 9 * * *", true, "active", some 7, Option.none, Option.none,
        Option.none, 0, 3, 0⟩
      ⟨[⟨1, 1, "0 9 * * *", true, "active", some 7, Option.none, Option.none,
        Option.none, 0, 3, 0⟩], [7]⟩).2.jobs = [] ∧
    (delete_periodic_task
      ⟨1, 1, "0 9 * * *", true, "active", some 7, Option.none, Option.none,
        Option.none, 0, 3, 0⟩
      ⟨[⟨1, 1, "0 9 * * *", true, "active", some 7, Option.none, Option.none,
        Option.none, 0, 3, 0⟩], [7]⟩).1.celery_task = some 7 ∧
    (delete_periodic_task
      ⟨2, 1, "0 9 * * *", true, "active", Option.none, Option.none,
        Option.none, Option.none, 0, 3, 0⟩
      ⟨[⟨2, 1, "0 9 * * *", true, "active", Option.none, Option.none,
        Option.none, Option.none, 0, 3, 0⟩], []⟩) =
      (⟨2, 1, "0 9 * * *", true, "active", Option.none, Option.none,
        Option.none, Option.none, 0, 3, 0⟩,
       ⟨[⟨2, 1, "0 9 * * *", true, "active", Option.none, Option.none,
        Option.none, Option.none, 0, 3, 0⟩], []⟩) :=
  ⟨by decide, by decide, by decide, by decide⟩

/- ===== Job creation (job_service.py + api/views.py, C4 & C5) ===== -/

/-- The requesting user, as the quota tiering sees it. -/
structure UserRec where
  id : Nat
  is_superuser : Bool
deriving DecidableEq, Repr

/-- Job table plus this user's `active_jobs_count_<id>` cache entry. -/
structure CreateState where
  jobs : List ScheduledJob
  cache : Option Nat
deriving DecidableEq, Repr

/-- The database count behind `get_active_jobs_count`: the user's
`ScheduledJob` rows with `is_active=True` and `status='active'`. -/
def activeJobsCountDb (uid : Nat) (jobs : List ScheduledJob) : Nat :=
  (jobs.filter fun j => j.user == uid && j.is_active && j.status == "active").length

/-- `JobLimitService.get_active_jobs_count(user)`: serve the cached count
when present, otherwise count in the database and cache it (TTL 300 s). -/
def get_active_jobs_count (u : UserRec) (s : CreateState) : Nat × CreateState :=
  match s.cache with
  | some c => (c, s)
  | Option.none =>
    (activeJobsCountDb u.id s.jobs,
     { s with cache := some (activeJobsCountDb u.id s.jobs) })

/-- `JobLimitService.can_create_job(user)`: the count must be strictly
below the tier ceiling — `MAX_JOBS_SUPERUSER = 100` for superusers,
`MAX_JOBS_NORMAL_USER = 5` otherwise. -/
def can_create_job (u : UserRec) (s : CreateState) : Bool × CreateState :=
  let r := get_active_jobs_count u s
  (decide (r.1 < if u.is_superuser then 100 else 5), r.2)

/-- `JobLimitService.invalidate_cache(user)`. -/
def invalidate_cache (s : CreateState) : CreateState :=
  { s with cache := Option.none }

/-- Errors surfaced by `perform_create`. -/
inductive CreateErr where
  | jobLimitExceeded
  | failedToCreateScheduledTask
deriving DecidableEq, Repr

/-- `ScheduledJobViewSet.perform_create(serializer)`: the quota gate runs
first and raises `JobLimitExceededException` before anything is saved;
otherwise `serializer.save(user=request.user)` persists the job, then
`CeleryTaskService.create_periodic_task` registers the external handle —
modelled by the oracle `syncOk` (whether the broker/database cooperates)
and the fresh handle id `handle` — and the quota cache is invalidated; on
any registration failure the just-created row is deleted again and a
`ValidationError` is raised to the caller. -/
def perform_create (u : UserRec) (newJob : ScheduledJob) (syncOk : Bool)
    (handle : Nat) (s : CreateState) : Except CreateErr Unit × CreateState :=
  let gate := can_create_job u s
  if !gate.1 then (.error .jobLimitExceeded, gate.2)
  else
    let saved := { newJob with user := u.id }
    let s2 := { gate.2 with jobs := gate.2.jobs ++ [saved] }
    if syncOk then
      (.ok (),
       invalidate_cache
         { s2 with
           jobs := s2.jobs.map fun j =>
             if j.id == saved.id then { j with celery_task := some handle }
             else j })
    else
      (.error .failedToCreateScheduledTask,
       { s2 with jobs := s2.jobs.filter fun j => j.id ≠ saved.id })

/-- C4: a non-privileged user who already owns 5 active jobs (database
count 5, and a coherent cache entry — absent or equal to that count; the
spec treats cache staleness as a separate, accepted TTL artefact) has the
creation request fail with `JobLimitExceeded`, and the job table is left
exactly as it was — the 6th job is never persisted — whatever the
synchronizer oracle would have answered. -/
theorem c4_quota_blocks_sixth_job (u : UserRec) (newJob : ScheduledJob)
    (syncOk : Bool) (handle : Nat) (s : CreateState)
    (hsup : u.is_superuser = false)
    (hcache : s.cache = Option.none ∨
      s.cache = some (activeJobsCountDb u.id s.jobs))
    (hcount : activeJobsCountDb u.id s.jobs = 5) :
    (perform_create u newJob syncOk handle s).1 = .error .jobLimitExceeded ∧
    (perform_create u newJob syncOk handle s).2.jobs = s.jobs := by
  rcases hcache with hc | hc <;>
    simp [perform_create, can_create_job, get_active_jobs_count, hc,
      hcount, hsup]

/-- Witness for C4: user 1 (not a superuser) with five active jobs and an
empty cache; the 6th creation attempt fails and persists nothing. -/
theorem c4_witness :
    ((⟨1, false⟩ : UserRec).is_superuser = false ∧
     ((⟨[⟨1, 1, "0 9 * * *", true, "active", Option.none, Option.none,
          Option.none, Option.none, 0, 3, 0⟩,
        ⟨2, 1, "0 9 * * *", true, "active", Option.none, Option.none,
          Option.none, Option.none, 0, 3, 0⟩,
        ⟨3, 1, "0 9 * * *", true, "active", Option.none, Option.none,
          Option.none, Option.none, 0, 3, 0⟩,
        ⟨4, 1, "0 9 * * *", true, "active", Option.none, Option.none,
          Option.none, Option.none, 0, 3, 0⟩,
        ⟨5, 1, "0 9 * * *", true, "active", Option.none, Option.none,
          Option.none, Option.none, 0, 3, 0⟩], Option.none⟩ :
        CreateState).cache = Option.none ∨
      (⟨[⟨1, 1, "0 9 * * *", true, "active", Option.none, Option.none,
          Option.none, Option.none, 0, 3, 0⟩,
        ⟨2, 1, "0 9 * * *", true, "active", Option.none, Option.none,
          Option.none, Option.none, 0, 3, 0⟩,
        ⟨3, 1, "0 9 * * *", true, "active", Option.none, Option.none,
          Option.none, Option.none, 0, 3, 0⟩,
        ⟨4, 1, "0 9 * * *", true, "active", Option.none, Option.none,
          Option.none, Option.none, 0, 3, 0⟩,
        ⟨5, 1, "0 9 * * *", true, "active", Option.none, Option.none,
          Option.none, Option.none, 0, 3, 0⟩], Option.none⟩ :
        CreateState).cache = some (activeJobsCountDb 1
          (⟨[⟨1, 1, "0 9 * * *", true, "active", Option.none, Option.none,
          Option.none, Option.none, 0, 3, 0⟩,
        ⟨2, 1, "0 9 * * *", true, "active", Option.none, Option.none,
          Option.none, Option.none, 0, 3, 0⟩,
        ⟨3, 1, "0 9 * * *", true, "active", Option.none, Option.none,
          Option.none, Option.none, 0, 3, 0⟩,
        ⟨4, 1, "0 9 * * *", true, "active", Option.none, Option.none,
          Option.none, Option.none, 0, 3, 0⟩,
        ⟨5, 1, "0 9 * * *", true, "active", Option.none, Option.none,
          Option.none, Option.none, 0, 3, 0⟩], Option.none⟩ :
        CreateState).jobs)) ∧
     activeJobsCountDb 1
       [⟨1, 1, "0 9 * * *", true, "active", Option.none, Option.none,
          Option.none, Option.none, 0, 3, 0⟩,
        ⟨2, 1, "0 9 * * *", true, "active", Option.none, Option.none,
          Option.none, Option.none, 0, 3, 0⟩,
        ⟨3, 1, "0 9 * * *", true, "active", Option.none, Option.none,
          Option.none, Option.none, 0, 3, 0⟩,
        ⟨4, 1, "0 9 * * *", true, "active", Option.none, Option.none,
          Option.none, Option.none, 0, 3, 0⟩,
        ⟨5, 1, "0 9 * * *", true, "active", Option.none, Option.none,
          Option.none, Option.none, 0, 3, 0⟩] = 5 ∧
     ((perform_create ⟨1, false⟩
        ⟨6, 1, "0 9 * * *", true, "active", Option.none, Option.none,
          Option.none, Option.none, 0, 3, 0⟩ true 9
        ⟨[⟨1, 1, "0 9 * * *", true, "active", Option.none, Option.none,
          Option.none, Option.none, 0, 3, 0⟩,
        ⟨2, 1, "0 9 * * *", true, "active", Option.none, Option.none,
          Option.none, Option.none, 0, 3, 0⟩,
        ⟨3, 1, "0 9 * * *", true, "active", Option.none, Option.none,
          Option.none, Option.none, 0, 3, 0⟩,
        ⟨4, 1, "0 9 * * *", true, "active", Option.none, Option.none,
          Option.none, Option.none, 0, 3, 0⟩,
        ⟨5, 1, "0 9 * * *", true, "active", Option.none, Option.none,
          Option.none, Option.none, 0, 3, 0⟩], Option.none⟩).1 =
        .error .jobLimitExceeded ∧
      (perform_create ⟨1, false⟩
        ⟨6, 1, "0 9 * * *", true, "active", Option.none, Option.none,
          Option.none, Option.none, 0, 3, 0⟩ true 9
        ⟨[⟨1, 1, "0 9 * * *", true, "active", Option.none, Option.none,
          Option.none, Option.none, 0, 3, 0⟩,
        ⟨2, 1, "0 9 * * *", true, "active", Option.none, Option.none,
          Option.none, Option.none, 0, 3, 0⟩,
        ⟨3, 1, "0 9 * * *", true, "active", Option.none, Option.none,
          Option.none, Option.none, 0, 3, 0⟩,
        ⟨4, 1, "0 9 * * *", true, "active", Option.none, Option.none,
          Option.none, Option.none, 0, 3, 0⟩,
        ⟨5, 1, "0 9 * * *", true, "active", Option.none, Option.none,
          Option.none, Option.none, 0, 3, 0⟩], Option.none⟩).2.jobs =
        [⟨1, 1, "0 9 * * *", true, "active", Option.none, Option.none,
          Option.none, Option.none, 0, 3, 0⟩,
        ⟨2, 1, "0 9 * * *", true, "active", Option.none, Option.none,
          Option.none, Option.none, 0, 3, 0⟩,
        ⟨3, 1, "0 9 * * *", true, "active", Option.none, Option.none,
          Option.none, Option.none, 0, 3, 0⟩,
        ⟨4, 1, "0 9 * * *", true, "active", Option.none, Option.none,
          Option.none, Option.none, 0, 3, 0⟩,
        ⟨5, 1, "0 9 * * *", true, "active", Option.none, Option.none,
          Option.none, Option.none, 0, 3, 0⟩])) :=
  ⟨rfl, Or.inl rfl, by decide,
   c4_quota_blocks_sixth_job ⟨1, false⟩
     ⟨6, 1, "0 9 * * *", true, "active", Option.none, Option.none,
       Option.none, Option.none, 0, 3, 0⟩ true 9 _ rfl (Or.inl rfl)
     (by decide)⟩

/-- C5: when registering the external periodic task fails during creation
(`syncOk = false`), `perform_create` deletes the just-created job again —
the final job table equals the original, so no job row exists for the
request — and raises the error to the caller.  `hfresh` is primary-key
freshness of the new row. -/
theorem c5_sync_failure_rolls_back (u : UserRec) (newJob : ScheduledJob)
    (handle : Nat) (s : CreateState)
    (hok : (can_create_job u s).1 = true)
    (hfresh : ∀ j ∈ s.jobs, j.id ≠ newJob.id) :
    (perform_create u newJob false handle s).1 =
      .error .failedToCreateScheduledTask ∧
    (perform_create u newJob false handle s).2.jobs = s.jobs := by
  have hjobs : (can_create_job u s).2.jobs = s.jobs := by
    unfold can_create_job get_active_jobs_count
    cases hc : s.cache <;> simp [hc]
  constructor
  · simp [perform_create, hok]
  · simp only [perform_create, hok, Bool.not_true, Bool.false_eq_true,
      if_false, hjobs]
    rw [List.filter_append]
    simp only [List.filter_cons, List.filter_nil]
    simp
    exact hfresh

/-- Witness for C5: an empty job table passes the quota gate; with the
synchronizer failing, creation errors out and the table stays empty. -/
theorem c5_witness :
    ((can_create_job ⟨1, false⟩ ⟨[], Option.none⟩).1 = true ∧
     (∀ j ∈ (⟨[], Option.none⟩ : CreateState).jobs,
        j.id ≠ (⟨1, 1, "0 9 * * *", true, "active", Option.none, Option.none,
          Option.none, Option.none, 0, 3, 0⟩ : ScheduledJob).id) ∧
     ((perform_create ⟨1, false⟩
        ⟨1, 1, "0 9 * * *", true, "active", Option.none, Option.none,
          Option.none, Option.none, 0, 3, 0⟩ false 9 ⟨[], Option.none⟩).1 =
        .error .failedToCreateScheduledTask ∧
      (perform_create ⟨1, false⟩
        ⟨1, 1, "0 9 * * *", true, "active", Option.none, Option.none,
          Option.none, Option.none, 0, 3, 0⟩ false 9
        ⟨[], Option.none⟩).2.jobs = [])) :=
  ⟨by decide, by simp,
   c5_sync_failure_rolls_back ⟨1, false⟩
     ⟨1, 1, "0 9 * * *", true, "active", Option.none, Option.none,
       Option.none, Option.none, 0, 3, 0⟩ 9 ⟨[], Option.none⟩
     (by decide) (by simp)⟩
